import Mathlib

/-!
Shallow embedding of `forge_sdk/client.py` (the `ForgeClient` library):
a submit-then-poll HTTP client for an asynchronous completion API.

Modelling conventions:
* Time is measured in abstract time-units (`Nat`).  Every network call in
  the environment carries the duration `d` it takes; `time.sleep n`
  advances the clock by `n`.
* The network is an oracle: the submission call is a `SubmitOutcome`
  and the poll calls are consumed, in order, from a `List PollOutcome`.
  If the loop is still running when the list is exhausted the model
  answers `CompleteResult.diverges` (the real loop would keep polling).
* JSON response bodies are modelled by the inductive `Json`; the body of
  a poll response is its top-level object, a `List (String × Json)`.
* Python exceptions escaping to the caller are modelled by
  `CompleteResult.raised cls msg` where `cls` is the Python exception
  class; the class hierarchy of `client.py` lines 19-29 is `PyExcClass`
  together with `pyAncestors` / `isSubclass`.
-/

set_option autoImplicit false

namespace Forge

/-- JSON values, as delivered by `response.json()`. -/
inductive Json where
  | null
  | bool (b : Bool)
  | num (n : Int)
  | str (s : String)
  | arr (elems : List Json)
  | obj (fields : List (String × Json))
  deriving Repr

/-- The Python exception classes that can cross the library boundary.
`exceptionCls` stands for the built-in root `Exception`. -/
inductive PyExcClass where
  | exceptionCls
  | forgeError
  | forgeTimeoutError
  | forgeAuthError
  | valueError
  | attributeError
  | lookupError
  | keyError
  deriving Repr, DecidableEq

/-- The method-resolution chain of each class, mirroring
`class ForgeError(Exception)`, `class ForgeTimeoutError(ForgeError)`,
`class ForgeAuthError(ForgeError)`; `ValueError`, `AttributeError` and
`KeyError` (via `LookupError`) are Python built-ins rooted at
`Exception`. -/
def pyAncestors : PyExcClass → List PyExcClass
  | .exceptionCls => [.exceptionCls]
  | .forgeError => [.forgeError, .exceptionCls]
  | .forgeTimeoutError => [.forgeTimeoutError, .forgeError, .exceptionCls]
  | .forgeAuthError => [.forgeAuthError, .forgeError, .exceptionCls]
  | .valueError => [.valueError, .exceptionCls]
  | .attributeError => [.attributeError, .exceptionCls]
  | .lookupError => [.lookupError, .exceptionCls]
  | .keyError => [.keyError, .lookupError, .exceptionCls]

/-- Subclass test: `isSubclass c d` holds when an `except d` clause
catches an instance of class `c`. -/
def isSubclass (c d : PyExcClass) : Bool :=
  (pyAncestors c).contains d

/-- Enum `ReasoningSpeed(str, Enum)` from `client.py` lines 13-17. -/
inductive ReasoningSpeed where
  | fast
  | medium
  | slow
  deriving Repr, DecidableEq

/-- The string value of each enum member. -/
def ReasoningSpeed.value : ReasoningSpeed → String
  | .fast => "fast"
  | .medium => "medium"
  | .slow => "slow"

/-- Enum lookup by value, i.e. the call `ReasoningSpeed(s)`; `none`
models the `ValueError` Python raises for an unrecognised value. -/
def reasoningSpeedOfValue (s : String) : Option ReasoningSpeed :=
  if s = "fast" then some .fast
  else if s = "medium" then some .medium
  else if s = "slow" then some .slow
  else none

/-- ASCII lowering of one character, as `str.lower` acts on the ASCII
range (the reasoning-speed values are ASCII). -/
def lowerChar (c : Char) : Char :=
  if 'A' ≤ c ∧ c ≤ 'Z' then Char.ofNat (c.toNat + 32) else c

/-- Python `s.lower()` restricted to ASCII content. -/
def pyLower (s : String) : String :=
  String.mk (s.toList.map lowerChar)

/-- Lines 110-111: `if isinstance(reasoning_speed, str): reasoning_speed =
ReasoningSpeed(reasoning_speed.lower())`.  A `ReasoningSpeed` member is
itself a `str` (str-mixin enum) whose content is its value, so both
branches funnel through the same lookup. -/
def resolveReasoningSpeed : Sum ReasoningSpeed String → Option ReasoningSpeed
  | .inl r => reasoningSpeedOfValue (pyLower r.value)
  | .inr s => reasoningSpeedOfValue (pyLower s)

/-- Dataclass `ForgeResponse` (lines 31-45).  `task_id` and `status`
keep the runtime JSON values the code stored: the dataclass declares
them `str` but Python never enforces that, and `complete` stores
whatever the server sent (`status` is one of the three terminal strings
at construction, `task_id` whatever the submission body held). -/
structure ForgeResponse where
  task_id : Json
  status : Json
  result : List (String × Json)
  completion_time : Nat
  deriving Repr

/-- Line 41: `self.status == "succeeded"`. -/
def ForgeResponse.succeeded (r : ForgeResponse) : Bool :=
  match r.status with
  | .str s => s = "succeeded"
  | _ => false

/-- Line 45: `self.status in ["failed", "cancelled"]`. -/
def ForgeResponse.failed (r : ForgeResponse) : Bool :=
  match r.status with
  | .str s => s = "failed" || s = "cancelled"
  | _ => false

/-- The client object after a successful `__init__` (lines 73-81). -/
structure ForgeClient where
  api_key : String
  base_url : String
  headers : List (String × String)
  deriving Repr

/-- Python truthiness of an optional string: `None` and `""` are falsy. -/
def pyTruthy : Option String → Bool
  | none => false
  | some s => !(s = "")

/-- Python `x or y` restricted to optional strings. -/
def pyOr (x y : Option String) : Option String :=
  if pyTruthy x then x else y

/-- Trailing-slash strip, i.e. `base_url.rstrip` with a slash argument
(line 77). -/
def rstripSlash (s : String) : String :=
  String.mk ((s.toList.reverse.dropWhile (fun c => c = '/')).reverse)

/-- Outcome of `ForgeClient.__init__`. -/
inductive InitResult where
  | ok (client : ForgeClient)
  | authError (msg : String)
  deriving Repr

/-- Default for the `base_url` parameter of `__init__`. -/
def defaultBaseUrl : String := "https://forge-api.nousresearch.com/v1"

/-- Constructor `ForgeClient.__init__` (lines 58-81): `apiKey` is the explicit
argument, `envApiKey` the value of `os.getenv("FORGE_API_KEY")`.
No network request appears in the body, so the model is a pure function
of its arguments. -/
def forgeClientInit (apiKey envApiKey : Option String)
    (baseUrl : String) : InitResult :=
  let key := pyOr apiKey envApiKey
  if pyTruthy key then
    let k := key.getD ""
    .ok { api_key := k
          base_url := rstripSlash baseUrl
          headers := [("Authorization", "Bearer " ++ k),
                      ("Content-Type", "application/json")] }
  else
    .authError
      "No API key provided. Set FORGE_API_KEY environment variable or pass key to constructor"

/-- Answer of the environment to the submission POST (lines 121-133):
either a 2xx response with its parsed JSON object body, after `d`
time-units, or a `requests` failure carrying the exception text.  The
body may or may not contain a `task_id` key: line 130 subscripts it
unguarded, so its absence raises an uncaught `KeyError`. -/
inductive SubmitOutcome where
  | success (d : Nat) (body : List (String × Json))
  | failure (d : Nat) (msg : String)
  deriving Repr

/-- Answer of the environment to one poll GET (lines 142-148): a 2xx
JSON object body, or a `requests.exceptions.RequestException`, each
taking `d` time-units.  The loop discards the message of a poll
exception, so the failure case carries only its duration. -/
inductive PollOutcome where
  | success (d : Nat) (payload : List (String × Json))
  | failure (d : Nat)
  deriving Repr

/-- Result of `result.get("metadata", {}).get("status", "unknown")`
(line 150): `attrError` models the `AttributeError` Python raises when
the `metadata` field holds a non-dict value. -/
inductive StatusGet where
  | ok (status : Json)
  | attrError
  deriving Repr

/-- Line 150 status extraction from the poll response body. -/
def statusOf (result : List (String × Json)) : StatusGet :=
  match result.lookup "metadata" with
  | none => .ok (.str "unknown")
  | some (.obj m) => .ok ((m.lookup "status").getD (.str "unknown"))
  | some _ => .attrError

/-- Line 153: `status in ["succeeded", "failed", "cancelled"]`. -/
def isTerminalStatus : Json → Bool
  | .str s => s = "succeeded" || s = "failed" || s = "cancelled"
  | _ => false

/-- Observable outcome of one `complete` call. `raised cls msg` is a
Python exception of class `cls` escaping to the caller; `diverges` only
means the finite poll trace ran out while the loop was still running. -/
inductive CompleteResult where
  | returned (r : ForgeResponse)
  | raised (cls : PyExcClass) (msg : String)
  | diverges
  deriving Repr

/-- The poll loop, lines 140-171.  `elapsed` is `time.time() - start_time`
and `retries` the consecutive-failure counter; both enter the loop at 0
(lines 137-138).  Each iteration first checks `elapsed < timeout`, then
consumes the next poll outcome: a successful poll advances the clock by
its duration, extracts the status, returns on a terminal one, otherwise
sleeps `poll_interval` and resets `retries`; a transport failure advances
the clock, bumps `retries`, raises `ForgeError` once `retries` reaches
`max_retries`, otherwise sleeps 1. -/
def pollLoop (taskId : Json) (timeout pollInterval maxRetries : Nat) :
    List PollOutcome → Nat → Nat → CompleteResult
  | trace, elapsed, retries =>
    if elapsed < timeout then
      match trace with
      | [] => .diverges
      | .success d payload :: rest =>
        match statusOf payload with
        | .attrError =>
          .raised .attributeError "get called on a non-dict metadata value"
        | .ok status =>
          let completionTime := elapsed + d
          if isTerminalStatus status then
            .returned { task_id := taskId, status := status,
                        result := payload, completion_time := completionTime }
          else
            pollLoop taskId timeout pollInterval maxRetries rest
              (elapsed + d + pollInterval) 0
      | .failure d :: rest =>
        if retries + 1 ≥ maxRetries then
          .raised .forgeError
            ("Polling failed after " ++ toString maxRetries ++ " retries")
        else
          pollLoop taskId timeout pollInterval maxRetries rest
            (elapsed + d + 1) (retries + 1)
    else
      .raised .forgeTimeoutError
        ("Completion timed out after " ++ toString timeout ++ " seconds")

/-- Method `ForgeClient.complete` (lines 83-171).  The second component
of the returned pair is the client after the call: the method body never
assigns to `self`, so the client is returned unchanged.  Line 130
subscripts the submission body (`response.json()["task_id"]`): a missing
key raises `KeyError`, which the `except RequestException` clause at
line 132 does not catch, so it escapes to the caller.  Note that
`start_time` is read only after the submission call returns (line 137),
so the submission duration never enters `elapsed`. -/
def ForgeClient.complete (c : ForgeClient) (_prompt : String)
    (reasoningSpeed : Sum ReasoningSpeed String) (_track : Bool)
    (timeout pollInterval maxRetries : Nat)
    (submit : SubmitOutcome) (trace : List PollOutcome) :
    CompleteResult × ForgeClient :=
  match resolveReasoningSpeed reasoningSpeed with
  | none => (.raised .valueError "is not a valid ReasoningSpeed", c)
  | some _speed =>
    match submit with
    | .failure _d msg =>
      (.raised .forgeError ("Failed to start completion: " ++ msg), c)
    | .success _d body =>
      match body.lookup "task_id" with
      | none => (.raised .keyError "task_id", c)
      | some taskId =>
        (pollLoop taskId timeout pollInterval maxRetries trace 0 0, c)

/-- A poll outcome that keeps the loop going: a successful call whose
extracted status is not terminal. -/
def nonTerminalPoll : PollOutcome → Bool
  | .success _ payload =>
    match statusOf payload with
    | .ok s => !(isTerminalStatus s)
    | .attrError => false
  | .failure _ => false

/-- Clock advance contributed by one consumed poll outcome: call
duration plus the sleep the loop performs afterwards (`poll_interval`
after a successful non-terminal poll, 1 after a transport failure). -/
def pollCost (pollInterval : Nat) : PollOutcome → Nat
  | .success d _ => d + pollInterval
  | .failure d => d + 1

/-- Total clock advance of a consumed trace segment. -/
def traceCost (pollInterval : Nat) (trace : List PollOutcome) : Nat :=
  (trace.map (pollCost pollInterval)).sum

/-! ### Step lemmas for the poll loop -/

theorem pollLoop_timeout_step (taskId : Json)
    (timeout pollInterval maxRetries : Nat) (trace : List PollOutcome)
    (elapsed retries : Nat) (h : timeout ≤ elapsed) :
    pollLoop taskId timeout pollInterval maxRetries trace elapsed retries =
      .raised .forgeTimeoutError
        ("Completion timed out after " ++ toString timeout ++ " seconds") := by
  unfold pollLoop
  rw [if_neg (by omega)]

theorem pollLoop_terminal_step (taskId : Json)
    (timeout pollInterval maxRetries d : Nat)
    (payload : List (String × Json)) (rest : List PollOutcome)
    (elapsed retries : Nat) (s : Json)
    (hrun : elapsed < timeout)
    (hst : statusOf payload = .ok s)
    (hterm : isTerminalStatus s = true) :
    pollLoop taskId timeout pollInterval maxRetries
        (.success d payload :: rest) elapsed retries =
      .returned { task_id := taskId, status := s, result := payload,
                  completion_time := elapsed + d } := by
  unfold pollLoop
  rw [if_pos hrun]
  simp only [hst, hterm, if_pos]

theorem pollLoop_continue_step (taskId : Json)
    (timeout pollInterval maxRetries d : Nat)
    (payload : List (String × Json)) (rest : List PollOutcome)
    (elapsed retries : Nat) (s : Json)
    (hrun : elapsed < timeout)
    (hst : statusOf payload = .ok s)
    (hnt : isTerminalStatus s = false) :
    pollLoop taskId timeout pollInterval maxRetries
        (.success d payload :: rest) elapsed retries =
      pollLoop taskId timeout pollInterval maxRetries rest
        (elapsed + d + pollInterval) 0 := by
  conv_lhs => unfold pollLoop
  rw [if_pos hrun]
  simp only [hst, hnt, Bool.false_eq_true, if_false]

theorem pollLoop_failure_raise_step (taskId : Json)
    (timeout pollInterval maxRetries d : Nat) (rest : List PollOutcome)
    (elapsed retries : Nat)
    (hrun : elapsed < timeout)
    (hmax : maxRetries ≤ retries + 1) :
    pollLoop taskId timeout pollInterval maxRetries
        (.failure d :: rest) elapsed retries =
      .raised .forgeError
        ("Polling failed after " ++ toString maxRetries ++ " retries") := by
  unfold pollLoop
  rw [if_pos hrun]
  simp only [ge_iff_le, hmax, if_pos]

theorem pollLoop_failure_retry_step (taskId : Json)
    (timeout pollInterval maxRetries d : Nat) (rest : List PollOutcome)
    (elapsed retries : Nat)
    (hrun : elapsed < timeout)
    (hbelow : retries + 1 < maxRetries) :
    pollLoop taskId timeout pollInterval maxRetries
        (.failure d :: rest) elapsed retries =
      pollLoop taskId timeout pollInterval maxRetries rest
        (elapsed + d + 1) (retries + 1) := by
  conv_lhs => unfold pollLoop
  rw [if_pos hrun]
  simp only [ge_iff_le]
  rw [if_neg (by omega)]

theorem pollLoop_attr_step (taskId : Json)
    (timeout pollInterval maxRetries d : Nat)
    (payload : List (String × Json)) (rest : List PollOutcome)
    (elapsed retries : Nat)
    (hrun : elapsed < timeout)
    (hst : statusOf payload = .attrError) :
    pollLoop taskId timeout pollInterval maxRetries
        (.success d payload :: rest) elapsed retries =
      .raised .attributeError "get called on a non-dict metadata value" := by
  conv_lhs => unfold pollLoop
  rw [if_pos hrun]
  simp only [hst]

/-! ### Multi-step lemmas for the poll loop -/

theorem pollLoop_failures_below (taskId : Json)
    (timeout pollInterval maxRetries : Nat) (ds : List Nat)
    (rest : List PollOutcome) (elapsed retries : Nat)
    (hbudget : elapsed + ds.sum + ds.length ≤ timeout)
    (hbelow : retries + ds.length < maxRetries) :
    pollLoop taskId timeout pollInterval maxRetries
        (ds.map PollOutcome.failure ++ rest) elapsed retries =
      pollLoop taskId timeout pollInterval maxRetries rest
        (elapsed + ds.sum + ds.length) (retries + ds.length) := by
  induction ds generalizing elapsed retries with
  | nil => simp
  | cons d ds ih =>
    simp only [List.sum_cons, List.length_cons] at hbudget hbelow ⊢
    have hrun : elapsed < timeout := by omega
    rw [List.map_cons, List.cons_append,
      pollLoop_failure_retry_step taskId timeout pollInterval maxRetries d
        (ds.map PollOutcome.failure ++ rest) elapsed retries hrun (by omega),
      ih (elapsed + d + 1) (retries + 1) (by omega) (by omega)]
    have h1 : elapsed + d + 1 + ds.sum + ds.length =
        elapsed + (d + ds.sum) + (ds.length + 1) := by omega
    have h2 : retries + 1 + ds.length = retries + (ds.length + 1) := by omega
    rw [h1, h2]

theorem pollLoop_failures_exhaust (taskId : Json)
    (timeout pollInterval maxRetries : Nat) (ds : List Nat)
    (rest : List PollOutcome) (elapsed retries : Nat)
    (hne : ds ≠ [])
    (hlen : retries + ds.length = maxRetries)
    (hbudget : elapsed + ds.sum + ds.length ≤ timeout) :
    pollLoop taskId timeout pollInterval maxRetries
        (ds.map PollOutcome.failure ++ rest) elapsed retries =
      .raised .forgeError
        ("Polling failed after " ++ toString maxRetries ++ " retries") := by
  induction ds generalizing elapsed retries with
  | nil => exact absurd rfl hne
  | cons d ds ih =>
    simp only [List.sum_cons, List.length_cons] at hbudget hlen
    have hrun : elapsed < timeout := by omega
    cases ds with
    | nil =>
      rw [List.map_cons, List.cons_append]
      exact pollLoop_failure_raise_step taskId timeout pollInterval maxRetries d
        (List.map PollOutcome.failure [] ++ rest) elapsed retries hrun
        (by simp only [List.length_nil] at hlen; omega)
    | cons d2 ds2 =>
      rw [List.map_cons, List.cons_append,
        pollLoop_failure_retry_step taskId timeout pollInterval maxRetries d
          ((d2 :: ds2).map PollOutcome.failure ++ rest) elapsed retries hrun
          (by simp only [List.length_cons] at hlen; omega)]
      exact ih (elapsed + d + 1) (retries + 1) (by simp) (by omega)
        (by simp only [List.sum_cons, List.length_cons] at hbudget ⊢; omega)

theorem traceCost_cons (pollInterval : Nat) (o : PollOutcome)
    (trace : List PollOutcome) :
    traceCost pollInterval (o :: trace) =
      pollCost pollInterval o + traceCost pollInterval trace := by
  simp [traceCost]

theorem pollLoop_nonterminal_skip (taskId : Json)
    (timeout pollInterval maxRetries : Nat)
    (pre rest : List PollOutcome) (elapsed : Nat)
    (hpre : pre.all nonTerminalPoll = true)
    (hbudget : elapsed + traceCost pollInterval pre < timeout) :
    pollLoop taskId timeout pollInterval maxRetries (pre ++ rest) elapsed 0 =
      pollLoop taskId timeout pollInterval maxRetries rest
        (elapsed + traceCost pollInterval pre) 0 := by
  induction pre generalizing elapsed with
  | nil => simp [traceCost]
  | cons o pre ih =>
    simp only [List.all_cons, Bool.and_eq_true] at hpre
    obtain ⟨ho, hpre⟩ := hpre
    cases o with
    | failure d => simp [nonTerminalPoll] at ho
    | success d payload =>
      cases hst : statusOf payload with
      | attrError => simp [nonTerminalPoll, hst] at ho
      | ok s =>
        have hnt : isTerminalStatus s = false := by
          simp [nonTerminalPoll, hst] at ho
          exact ho
        have hc : traceCost pollInterval (PollOutcome.success d payload :: pre) =
            d + pollInterval + traceCost pollInterval pre := by
          rw [traceCost_cons]
          simp [pollCost]
        rw [hc] at hbudget ⊢
        have hrun : elapsed < timeout := by omega
        rw [List.cons_append,
          pollLoop_continue_step taskId timeout pollInterval maxRetries d
            payload (pre ++ rest) elapsed 0 s hrun hst hnt,
          ih (elapsed + d + pollInterval) hpre (by omega)]
        have h1 : elapsed + d + pollInterval + traceCost pollInterval pre =
            elapsed + (d + pollInterval + traceCost pollInterval pre) := by omega
        rw [h1]

theorem pollLoop_nonterminal_timeout (taskId : Json)
    (timeout pollInterval maxRetries : Nat)
    (trace : List PollOutcome) (elapsed retries : Nat)
    (hall : trace.all nonTerminalPoll = true)
    (hpi : 1 ≤ pollInterval)
    (hlen : timeout ≤ elapsed + trace.length) :
    pollLoop taskId timeout pollInterval maxRetries trace elapsed retries =
      .raised .forgeTimeoutError
        ("Completion timed out after " ++ toString timeout ++ " seconds") := by
  induction trace generalizing elapsed retries with
  | nil =>
    exact pollLoop_timeout_step taskId timeout pollInterval maxRetries []
      elapsed retries (by simpa using hlen)
  | cons o rest ih =>
    by_cases hrun : elapsed < timeout
    · simp only [List.all_cons, Bool.and_eq_true] at hall
      obtain ⟨ho, hall⟩ := hall
      cases o with
      | failure d => simp [nonTerminalPoll] at ho
      | success d payload =>
        cases hst : statusOf payload with
        | attrError => simp [nonTerminalPoll, hst] at ho
        | ok s =>
          have hnt : isTerminalStatus s = false := by
            simp [nonTerminalPoll, hst] at ho
            exact ho
          rw [pollLoop_continue_step taskId timeout pollInterval maxRetries d
            payload rest elapsed retries s hrun hst hnt]
          exact ih (elapsed + d + pollInterval) 0 hall
            (by simp only [List.length_cons] at hlen; omega)
    · exact pollLoop_timeout_step taskId timeout pollInterval maxRetries
        (o :: rest) elapsed retries (by omega)

theorem pollLoop_raised_classes (taskId : Json)
    (timeout pollInterval maxRetries : Nat)
    (trace : List PollOutcome) (elapsed retries : Nat)
    (cls : PyExcClass) (msg : String)
    (h : pollLoop taskId timeout pollInterval maxRetries trace elapsed retries =
      .raised cls msg) :
    cls = .forgeError ∨ cls = .forgeTimeoutError ∨ cls = .attributeError := by
  induction trace generalizing elapsed retries with
  | nil =>
    by_cases hrun : elapsed < timeout
    · unfold pollLoop at h
      rw [if_pos hrun] at h
      exact absurd h (by simp)
    · rw [pollLoop_timeout_step taskId timeout pollInterval maxRetries []
        elapsed retries (by omega)] at h
      cases h
      exact Or.inr (Or.inl rfl)
  | cons o rest ih =>
    by_cases hrun : elapsed < timeout
    · cases o with
      | success d payload =>
        cases hst : statusOf payload with
        | attrError =>
          rw [pollLoop_attr_step taskId timeout pollInterval maxRetries d
            payload rest elapsed retries hrun hst] at h
          cases h
          exact Or.inr (Or.inr rfl)
        | ok s =>
          by_cases hterm : isTerminalStatus s = true
          · rw [pollLoop_terminal_step taskId timeout pollInterval maxRetries d
              payload rest elapsed retries s hrun hst hterm] at h
            exact absurd h (by simp)
          · rw [pollLoop_continue_step taskId timeout pollInterval maxRetries d
              payload rest elapsed retries s hrun hst
              (by simpa using hterm)] at h
            exact ih _ _ h
      | failure d =>
        by_cases hmax : maxRetries ≤ retries + 1
        · rw [pollLoop_failure_raise_step taskId timeout pollInterval maxRetries d
            rest elapsed retries hrun hmax] at h
          cases h
          exact Or.inl rfl
        · rw [pollLoop_failure_retry_step taskId timeout pollInterval maxRetries d
            rest elapsed retries hrun (by omega)] at h
          exact ih _ _ h
    · rw [pollLoop_timeout_step taskId timeout pollInterval maxRetries
        (o :: rest) elapsed retries (by omega)] at h
      cases h
      exact Or.inr (Or.inl rfl)

theorem length_mul_le_traceCost (pollInterval : Nat) (pre : List PollOutcome)
    (hpre : pre.all nonTerminalPoll = true) :
    pre.length * pollInterval ≤ traceCost pollInterval pre := by
  induction pre with
  | nil => simp [traceCost]
  | cons o pre ih =>
    simp only [List.all_cons, Bool.and_eq_true] at hpre
    obtain ⟨ho, hpre⟩ := hpre
    have hcost : traceCost pollInterval (o :: pre) =
        pollCost pollInterval o + traceCost pollInterval pre := by
      simp [traceCost]
    cases o with
    | failure d => simp [nonTerminalPoll] at ho
    | success d payload =>
      have := ih hpre
      rw [hcost]
      simp only [List.length_cons, pollCost]
      nlinarith

/-! ### Claim theorems -/

/-- C1: whenever a poll succeeds and the extracted `metadata.status` is
one of "succeeded", "failed", "cancelled", the loop stops and returns
(does not raise) a `ForgeResponse` whose `status` field is that status
and whose `result` field is the entire raw payload verbatim; the
`succeeded` predicate of that response holds exactly when the status is
"succeeded". -/
theorem c1_terminal_poll_returns_verbatim (taskId : Json)
    (timeout pollInterval maxRetries d : Nat)
    (payload : List (String × Json)) (rest : List PollOutcome)
    (elapsed retries : Nat) (s : String)
    (hrun : elapsed < timeout)
    (hst : statusOf payload = .ok (.str s))
    (hterm : s = "succeeded" ∨ s = "failed" ∨ s = "cancelled") :
    pollLoop taskId timeout pollInterval maxRetries
        (.success d payload :: rest) elapsed retries =
      .returned { task_id := taskId, status := .str s, result := payload,
                  completion_time := elapsed + d } ∧
    (ForgeResponse.succeeded { task_id := taskId, status := .str s,
                               result := payload,
                               completion_time := elapsed + d } = true ↔
      s = "succeeded") := by
  have hterm2 : isTerminalStatus (.str s) = true := by
    rcases hterm with h | h | h <;> simp [isTerminalStatus, h]
  refine ⟨pollLoop_terminal_step taskId timeout pollInterval maxRetries d
    payload rest elapsed retries (.str s) hrun hst hterm2, ?_⟩
  simp [ForgeResponse.succeeded]

/-- Witness for C1 at the payload of the worked spec example. -/
theorem c1_witness :
    pollLoop (Json.str "t") 300 5 5
        [.success 0 [("metadata", .obj [("status", .str "succeeded")]),
                     ("output", .str "hi")]] 0 0 =
      .returned { task_id := .str "t", status := .str "succeeded",
                  result := [("metadata", .obj [("status", .str "succeeded")]),
                             ("output", .str "hi")],
                  completion_time := 0 + 0 } ∧
    (ForgeResponse.succeeded
        { task_id := .str "t", status := .str "succeeded",
          result := [("metadata", .obj [("status", .str "succeeded")]),
                     ("output", .str "hi")],
          completion_time := 0 + 0 } = true ↔ "succeeded" = "succeeded") :=
  c1_terminal_poll_returns_verbatim (Json.str "t") 300 5 5 0
    [("metadata", .obj [("status", .str "succeeded")]), ("output", .str "hi")]
    [] 0 0 "succeeded" (by decide) rfl (Or.inl rfl)

/-- C3: once elapsed time has reached or exceeded the configured timeout,
no further poll is attempted (the outcome does not depend on the trace)
and the distinct `ForgeTimeoutError` is raised with a message naming the
configured timeout; moreover a run in which no poll ever yields a
terminal status ends in that same timeout error — never in a returned
partial result. -/
theorem c3_timeout_behavior (taskId : Json)
    (timeout pollInterval maxRetries : Nat) :
    (∀ (trace : List PollOutcome) (elapsed retries : Nat),
      timeout ≤ elapsed →
      pollLoop taskId timeout pollInterval maxRetries trace elapsed retries =
        .raised .forgeTimeoutError
          ("Completion timed out after " ++ toString timeout ++ " seconds")) ∧
    (∀ (trace : List PollOutcome) (elapsed retries : Nat),
      trace.all nonTerminalPoll = true → 1 ≤ pollInterval →
      timeout ≤ elapsed + trace.length →
      pollLoop taskId timeout pollInterval maxRetries trace elapsed retries =
        .raised .forgeTimeoutError
          ("Completion timed out after " ++ toString timeout ++ " seconds")) ∧
    (∀ (trace : List PollOutcome) (elapsed retries : Nat) (r : ForgeResponse),
      timeout ≤ elapsed →
      pollLoop taskId timeout pollInterval maxRetries trace elapsed retries ≠
        .returned r) := by
  refine ⟨?_, ?_, ?_⟩
  · intro trace elapsed retries h
    exact pollLoop_timeout_step taskId timeout pollInterval maxRetries
      trace elapsed retries h
  · intro trace elapsed retries hall hpi hlen
    exact pollLoop_nonterminal_timeout taskId timeout pollInterval maxRetries
      trace elapsed retries hall hpi hlen
  · intro trace elapsed retries r h
    rw [pollLoop_timeout_step taskId timeout pollInterval maxRetries
      trace elapsed retries h]
    simp

/-- Witness for C3 at timeout 10, taken from the spec worked example. -/
theorem c3_witness :
    pollLoop (Json.str "t") 10 5 5 [.failure 0] 10 0 =
      .raised .forgeTimeoutError "Completion timed out after 10 seconds" :=
  (c3_timeout_behavior (Json.str "t") 10 5 5).1 [.failure 0] 10 0 (by decide)

/-- C7: constructing with no explicit key and no environment value raises
the authentication error (the body of `__init__` contains no network
request, so the embedding is a pure function of its arguments and the
error precedes any network activity); with a truthy credential available
construction succeeds, producing exactly the stored fields and again
performing no network call. -/
theorem c7_construction_auth (baseUrl : String) :
    forgeClientInit none none baseUrl =
      .authError "No API key provided. Set FORGE_API_KEY environment variable or pass key to constructor" ∧
    (∀ apiKey envKey : Option String, pyTruthy (pyOr apiKey envKey) = true →
      forgeClientInit apiKey envKey baseUrl =
        .ok { api_key := (pyOr apiKey envKey).getD "",
              base_url := rstripSlash baseUrl,
              headers := [("Authorization",
                            "Bearer " ++ (pyOr apiKey envKey).getD ""),
                          ("Content-Type", "application/json")] }) := by
  refine ⟨rfl, ?_⟩
  intro apiKey envKey h
  simp [forgeClientInit, h]

/-- Witness for C7 with an explicit key. -/
theorem c7_witness :
    forgeClientInit none none "https://forge-api.nousresearch.com/v1" =
      .authError "No API key provided. Set FORGE_API_KEY environment variable or pass key to constructor" ∧
    forgeClientInit (some "k") none "https://forge-api.nousresearch.com/v1" =
      .ok { api_key := (pyOr (some "k") none).getD "",
            base_url := rstripSlash "https://forge-api.nousresearch.com/v1",
            headers := [("Authorization",
                          "Bearer " ++ (pyOr (some "k") none).getD ""),
                        ("Content-Type", "application/json")] } :=
  ⟨(c7_construction_auth "https://forge-api.nousresearch.com/v1").1,
   (c7_construction_auth "https://forge-api.nousresearch.com/v1").2
     (some "k") none (by decide)⟩

/-- C8: when the nested `metadata.status` field is absent — either the
whole `metadata` key is missing or the `metadata` object has no `status`
key — the extracted status is the literal "unknown", which is not
terminal, so the loop sleeps for the poll interval and continues polling
rather than returning or raising. -/
theorem c8_missing_status_unknown (taskId : Json)
    (timeout pollInterval maxRetries d : Nat)
    (payload : List (String × Json)) (rest : List PollOutcome)
    (elapsed retries : Nat)
    (habs : payload.lookup "metadata" = none ∨
      ∃ m, payload.lookup "metadata" = some (.obj m) ∧
        m.lookup "status" = none)
    (hrun : elapsed < timeout) :
    statusOf payload = .ok (.str "unknown") ∧
    isTerminalStatus (.str "unknown") = false ∧
    pollLoop taskId timeout pollInterval maxRetries
        (.success d payload :: rest) elapsed retries =
      pollLoop taskId timeout pollInterval maxRetries rest
        (elapsed + d + pollInterval) 0 := by
  have hst : statusOf payload = .ok (.str "unknown") := by
    rcases habs with h | ⟨m, hm, hs⟩
    · simp [statusOf, h]
    · simp [statusOf, hm, hs]
  exact ⟨hst, rfl,
    pollLoop_continue_step taskId timeout pollInterval maxRetries d payload
      rest elapsed retries (.str "unknown") hrun hst rfl⟩

/-- Witness for C8 with a payload that has no `metadata` key at all. -/
theorem c8_witness :
    statusOf [("output", .str "hi")] = .ok (.str "unknown") ∧
    isTerminalStatus (.str "unknown") = false ∧
    pollLoop (Json.str "t") 300 5 5
        [.success 0 [("output", .str "hi")], .failure 1] 0 0 =
      pollLoop (Json.str "t") 300 5 5 [.failure 1] (0 + 0 + 5) 0 :=
  c8_missing_status_unknown (Json.str "t") 300 5 5 0 [("output", .str "hi")]
    [.failure 1] 0 0 (Or.inl rfl) (by decide)

/-- C9: an explicitly supplied empty-string key, or an empty-string
environment value and no argument, is treated exactly like an absent
credential: Python truthiness makes every falsy value count as missing,
and construction raises the authentication error. -/
theorem c9_empty_key_falsy (baseUrl : String) (envKey : Option String) :
    forgeClientInit (some "") envKey baseUrl =
      forgeClientInit none envKey baseUrl ∧
    forgeClientInit (some "") none baseUrl =
      .authError "No API key provided. Set FORGE_API_KEY environment variable or pass key to constructor" ∧
    forgeClientInit none (some "") baseUrl =
      .authError "No API key provided. Set FORGE_API_KEY environment variable or pass key to constructor" :=
  ⟨rfl, rfl, rfl⟩

/-- C10: `complete` never mutates the client object: the client that
comes back as the second component is the argument itself — in
particular `api_key`, `base_url` and `headers` are unchanged — whatever
the submission outcome and poll trace, so successive calls on one client
are independent. -/
theorem c10_complete_preserves_client (c : ForgeClient) (p : String)
    (rs : Sum ReasoningSpeed String) (tr : Bool)
    (timeout pollInterval maxRetries : Nat) (su : SubmitOutcome)
    (trace : List PollOutcome) :
    (ForgeClient.complete c p rs tr timeout pollInterval maxRetries
        su trace).2 = c ∧
    (ForgeClient.complete c p rs tr timeout pollInterval maxRetries
        su trace).2.api_key = c.api_key ∧
    (ForgeClient.complete c p rs tr timeout pollInterval maxRetries
        su trace).2.base_url = c.base_url ∧
    (ForgeClient.complete c p rs tr timeout pollInterval maxRetries
        su trace).2.headers = c.headers := by
  have h : (ForgeClient.complete c p rs tr timeout pollInterval maxRetries
      su trace).2 = c := by
    unfold ForgeClient.complete
    cases resolveReasoningSpeed rs with
    | none => rfl
    | some sp =>
      cases su with
      | failure d msg2 => rfl
      | success d body =>
        dsimp only
        cases List.lookup "task_id" body <;> rfl
  exact ⟨h, by rw [h], by rw [h], by rw [h]⟩

/-- C2: the generic `ForgeError` is raised exactly when the count of
consecutive transport failures reaches `max_retries` (default 5) and not
before.  First conjunct: a run of exactly `max_retries` consecutive
failures raises it, whatever the trace holds afterwards.  Second
conjunct: any shorter run of consecutive failures is absorbed, each
failure advancing the clock by its call duration plus the 1-unit sleep
and bumping the counter, with elapsed time never reset.  Third conjunct:
a successful poll with a non-terminal status resets the counter to
zero. -/
theorem c2_retry_budget (taskId : Json)
    (timeout pollInterval maxRetries : Nat) :
    (∀ (ds : List Nat) (rest : List PollOutcome),
      ds.length = maxRetries → 0 < maxRetries →
      ds.sum + ds.length ≤ timeout →
      pollLoop taskId timeout pollInterval maxRetries
          (ds.map PollOutcome.failure ++ rest) 0 0 =
        .raised .forgeError
          ("Polling failed after " ++ toString maxRetries ++ " retries")) ∧
    (∀ (ds : List Nat) (rest : List PollOutcome) (elapsed retries : Nat),
      elapsed + ds.sum + ds.length ≤ timeout →
      retries + ds.length < maxRetries →
      pollLoop taskId timeout pollInterval maxRetries
          (ds.map PollOutcome.failure ++ rest) elapsed retries =
        pollLoop taskId timeout pollInterval maxRetries rest
          (elapsed + ds.sum + ds.length) (retries + ds.length)) ∧
    (∀ (d : Nat) (payload : List (String × Json)) (rest : List PollOutcome)
        (elapsed retries : Nat) (s : Json),
      elapsed < timeout → statusOf payload = .ok s →
      isTerminalStatus s = false →
      pollLoop taskId timeout pollInterval maxRetries
          (.success d payload :: rest) elapsed retries =
        pollLoop taskId timeout pollInterval maxRetries rest
          (elapsed + d + pollInterval) 0) := by
  refine ⟨?_, ?_, ?_⟩
  · intro ds rest hlen hpos hbud
    have hne : ds ≠ [] := by
      intro hnil
      rw [hnil] at hlen
      simp at hlen
      omega
    exact pollLoop_failures_exhaust taskId timeout pollInterval maxRetries ds
      rest 0 0 hne (by omega) (by omega)
  · intro ds rest elapsed retries hbud hbelow
    exact pollLoop_failures_below taskId timeout pollInterval maxRetries ds
      rest elapsed retries hbud hbelow
  · intro d payload rest elapsed retries s hrun hst hnt
    exact pollLoop_continue_step taskId timeout pollInterval maxRetries d
      payload rest elapsed retries s hrun hst hnt

/-- Witness for C2: two consecutive transport failures with a budget of
two raise the generic error. -/
theorem c2_witness :
    pollLoop (Json.str "t") 300 5 2 ([1, 1].map PollOutcome.failure ++ []) 0 0 =
      .raised .forgeError
        ("Polling failed after " ++ toString 2 ++ " retries") :=
  (c2_retry_budget (Json.str "t") 300 5 2).1 [1, 1] [] rfl (by decide) (by decide)

/-- C4 counterexample: a `complete` call with the unrecognised reasoning
speed string "turbo" raises `ValueError`, a built-in exception that is
not a subclass of `ForgeError`, so the three-kind taxonomy of the claim
does not cover every exception `complete` can raise to the caller. -/
theorem c4_counterexample :
    (ForgeClient.complete
        { api_key := "k", base_url := "https://forge-api.nousresearch.com/v1",
          headers := [("Authorization", "Bearer k"),
                      ("Content-Type", "application/json")] }
        "hello" (.inr "turbo") false 300 5 5
        (.success 0 [("task_id", .str "t")]) []).1 =
      .raised .valueError "is not a valid ReasoningSpeed" ∧
    isSubclass .valueError .forgeError = false :=
  ⟨rfl, rfl⟩

/-- C4 amended: every error the library itself constructs and raises —
the authentication error at construction, the generic API error and the
timeout error from `complete` — is a variant of the base `ForgeError`
category; but `complete` can additionally propagate built-in Python
exceptions — `ValueError` from an unrecognised reasoning-speed string,
`AttributeError` from a non-dict `metadata` value, and `KeyError` from a
2xx submission body without a `task_id` key (line 130, outside the reach
of the `except RequestException` clause) — so catching `ForgeError`
covers the library-raised failures, not every exception. -/
theorem c4_amended_taxonomy (c : ForgeClient) (p : String)
    (rs : Sum ReasoningSpeed String) (tr : Bool)
    (timeout pollInterval maxRetries : Nat) (su : SubmitOutcome)
    (trace : List PollOutcome) :
    (∀ (cls : PyExcClass) (msg : String),
      (ForgeClient.complete c p rs tr timeout pollInterval maxRetries
          su trace).1 = .raised cls msg →
      isSubclass cls .forgeError = true ∨ cls = .valueError ∨
        cls = .attributeError ∨ cls = .keyError) ∧
    isSubclass .forgeAuthError .forgeError = true ∧
    isSubclass .forgeTimeoutError .forgeError = true ∧
    isSubclass .forgeError .forgeError = true := by
  refine ⟨?_, rfl, rfl, rfl⟩
  intro cls msg h
  unfold ForgeClient.complete at h
  cases hrs : resolveReasoningSpeed rs with
  | none =>
    rw [hrs] at h
    injection h with h1 h2
    subst h1
    exact Or.inr (Or.inl rfl)
  | some sp =>
    rw [hrs] at h
    cases su with
    | failure d msg2 =>
      injection h with h1 h2
      subst h1
      exact Or.inl rfl
    | success d body =>
      dsimp only at h
      cases hb : List.lookup "task_id" body with
      | none =>
        rw [hb] at h
        injection h with h1 h2
        subst h1
        exact Or.inr (Or.inr (Or.inr rfl))
      | some taskId =>
        rw [hb] at h
        rcases pollLoop_raised_classes taskId timeout pollInterval maxRetries
            trace 0 0 cls msg h with h1 | h1 | h1 <;> subst h1
        · exact Or.inl rfl
        · exact Or.inl rfl
        · exact Or.inr (Or.inr (Or.inl rfl))

/-- Witness for C4 amended: a submission failure surfaces as the generic
`ForgeError`, which the taxonomy covers. -/
theorem c4_witness :
    isSubclass .forgeError .forgeError = true ∨
      PyExcClass.forgeError = .valueError ∨
      PyExcClass.forgeError = .attributeError ∨
      PyExcClass.forgeError = .keyError :=
  (c4_amended_taxonomy
      { api_key := "k", base_url := "u", headers := [] }
      "p" (.inl .medium) false 300 5 5 (.failure 3 "boom") []).1
    .forgeError "Failed to start completion: boom" rfl

/-- C5 counterexample: with a submission call that takes 7 time-units
and a single terminal poll that takes 2, the returned `completion_time`
is 2, not 9: the clock is read only after the submission call returns
(line 137), so the measurement window opens at the start of the poll
loop, not at the start of the submission request as the claim states. -/
theorem c5_counterexample :
    (ForgeClient.complete
        { api_key := "k", base_url := "https://forge-api.nousresearch.com/v1",
          headers := [] }
        "p" (.inl .medium) false 300 5 5
        (.success 7 [("task_id", .str "t")])
        [.success 2 [("metadata", .obj [("status", .str "succeeded")])]]).1 =
      .returned { task_id := .str "t", status := .str "succeeded",
                  result := [("metadata",
                              .obj [("status", .str "succeeded")])],
                  completion_time := 2 } ∧
    (2 : Nat) ≠ 7 + 2 :=
  ⟨rfl, by decide⟩

/-- C5 amended: `completion_time` is measured client-side from the start
of the poll loop — immediately after the submission request returns — to
the terminal poll response: the outcome of `complete` is invariant under
the submission call duration, and a terminal poll of duration `d`
observed at loop-elapsed `elapsed` yields completion time
`elapsed + d`. -/
theorem c5_amended_loop_start (c : ForgeClient) (p : String)
    (rs : Sum ReasoningSpeed String) (tr : Bool)
    (timeout pollInterval maxRetries dsub dsub2 : Nat)
    (body : List (String × Json)) (taskId : Json)
    (trace : List PollOutcome) :
    (ForgeClient.complete c p rs tr timeout pollInterval maxRetries
        (.success dsub body) trace =
      ForgeClient.complete c p rs tr timeout pollInterval maxRetries
        (.success dsub2 body) trace) ∧
    (∀ (d : Nat) (payload : List (String × Json)) (rest : List PollOutcome)
        (elapsed retries : Nat) (s : Json),
      elapsed < timeout → statusOf payload = .ok s →
      isTerminalStatus s = true →
      pollLoop taskId timeout pollInterval maxRetries
          (.success d payload :: rest) elapsed retries =
        .returned { task_id := taskId, status := s, result := payload,
                    completion_time := elapsed + d }) := by
  constructor
  · unfold ForgeClient.complete
    cases resolveReasoningSpeed rs with
    | none => rfl
    | some sp => dsimp only
  · intro d payload rest elapsed retries s hrun hst hterm
    exact pollLoop_terminal_step taskId timeout pollInterval maxRetries d
      payload rest elapsed retries s hrun hst hterm

/-- Witness for C5 amended at a terminal poll of duration 2 observed at
loop-elapsed 0. -/
theorem c5_witness :
    pollLoop (Json.str "t") 300 5 5
        [.success 2 [("metadata", .obj [("status", .str "succeeded")])]]
        0 0 =
      .returned { task_id := .str "t", status := .str "succeeded",
                  result := [("metadata",
                              .obj [("status", .str "succeeded")])],
                  completion_time := 0 + 2 } :=
  (c5_amended_loop_start
      { api_key := "k", base_url := "u", headers := [] }
      "p" (.inl .medium) false 300 5 5 7 0 [("task_id", Json.str "t")]
      (Json.str "t")
      [.success 2 [("metadata", .obj [("status", .str "succeeded")])]]).2
    2 [("metadata", .obj [("status", .str "succeeded")])] [] 0 0
    (.str "succeeded") (by decide) rfl rfl

/-- C6: for a trace of non-terminal polls followed by a terminal one,
the loop — entered at elapsed 0 and retry count 0, exactly as `complete`
enters it — returns at the first terminal poll and at no other: the
whole non-terminal prefix is consumed first, outcomes after the terminal
poll are irrelevant, and the elapsed time at return is at least the
number of non-terminal polls times the poll interval. -/
theorem c6_first_terminal (taskId : Json)
    (timeout pollInterval maxRetries d : Nat)
    (pre rest : List PollOutcome) (payload : List (String × Json))
    (s : Json)
    (hpre : pre.all nonTerminalPoll = true)
    (hst : statusOf payload = .ok s)
    (hterm : isTerminalStatus s = true)
    (hbudget : traceCost pollInterval pre < timeout) :
    pollLoop taskId timeout pollInterval maxRetries
        (pre ++ .success d payload :: rest) 0 0 =
      .returned { task_id := taskId, status := s, result := payload,
                  completion_time := traceCost pollInterval pre + d } ∧
    pre.length * pollInterval ≤ traceCost pollInterval pre + d := by
  constructor
  · rw [pollLoop_nonterminal_skip taskId timeout pollInterval maxRetries pre
        (.success d payload :: rest) 0 hpre (by omega),
      Nat.zero_add,
      pollLoop_terminal_step taskId timeout pollInterval maxRetries d payload
        rest (traceCost pollInterval pre) 0 s hbudget hst hterm]
  · have h := length_mul_le_traceCost pollInterval pre hpre
    omega

/-- Witness for C6: one "running" poll, then a "failed" poll. -/
theorem c6_witness :
    pollLoop (Json.str "t") 300 5 5
        ([.success 1 [("metadata", .obj [("status", .str "running")])]] ++
          .success 2 [("metadata", .obj [("status", .str "failed")])] ::
            [.failure 9]) 0 0 =
      .returned { task_id := .str "t", status := .str "failed",
                  result := [("metadata", .obj [("status", .str "failed")])],
                  completion_time := traceCost 5
                    [.success 1
                      [("metadata", .obj [("status", .str "running")])]] + 2 } ∧
    ([PollOutcome.success 1
        [("metadata", .obj [("status", .str "running")])]].length * 5 ≤
      traceCost 5
        [.success 1 [("metadata", .obj [("status", .str "running")])]] + 2) :=
  c6_first_terminal (Json.str "t") 300 5 5 2
    [.success 1 [("metadata", .obj [("status", .str "running")])]]
    [.failure 9] [("metadata", .obj [("status", .str "failed")])]
    (.str "failed") rfl rfl rfl (by decide)

end Forge
